import Mathlib

/-!
Verification of the core reconciliation logic of the Strava gear wear monitor
(`strava_gear_monitor.py`) against its natural-language specification.

Modelling conventions (shallow embedding):
* `datetime` values are modelled as exact rationals (`ℚ`, seconds on an abstract
  timeline); only ordering, addition of spans and equality are used by the code.
* Python `float` distances are modelled as exact rationals.  The source only
  adds, divides by `1000` and compares them.
* An activity's raw `start_date` string is modelled by `RawDate`: either a
  value that `datetime.fromisoformat` would parse (carrying its timestamp) or a
  malformed one on which parsing raises.
* Python dictionaries keyed by strings are modelled as total functions with a
  default value (`[]` for record lists, `none` for the component dictionary).
  The source code never distinguishes a missing key from the default in any of
  the embedded operations (checked per operation, see the doc comments).
* JSON persistence is modelled by the `stored_components` / `stored_swaps`
  mirror fields of `MonitorState`; a `_save_*` call copies the in-memory
  collection into the mirror.  Write failures of the store are out of scope.
-/

/-- Raw `start_date` field of an activity as found in the upstream feed:
either a well-formed ISO-8601 string (represented by the timestamp it parses
to) or a malformed string on which `datetime.fromisoformat` raises. -/
inductive RawDate where
  | valid (t : ℚ)
  | malformed
deriving DecidableEq, Repr

/-- Result of `datetime.fromisoformat(activity['start_date'].replace('Z', '+00:00'))`:
`some` timestamp on a well-formed date, `none` when the call raises. -/
def parseStartDate : RawDate → Option ℚ
  | .valid t => some t
  | .malformed => none

/-- Activity dictionary as consumed by the monitor.  Optional fields model
`dict.get` access in the source: `gear_id` and `sport_type` may be absent
(or empty, which the source treats as absent via truthiness), `distance`
defaults to `0` when absent. -/
structure Activity where
  id : String
  gear_id : Option String
  sport_type : Option String
  distance : Option ℚ
  start_date : RawDate
deriving DecidableEq, Repr

/-- Python truthiness of an optional string: `None` and the empty string are
falsy, everything else truthy (used by `if not gear_id` / `if activity.get('sport_type')`). -/
def truthyStr : Option String → Bool
  | none => false
  | some s => !(s == "")

/-- Maintenance type enum from the source (`MaintenanceType`). -/
inductive MaintenanceType where
  | WASH
  | TIRE_PRESSURE
  | LUBE
deriving DecidableEq, Repr

/-- The comparison `r.maintenance_type == item` performed by
`get_maintenance_history` compares a `MaintenanceType` enum member with the
`item` string.  In Python, `Enum` defines no cross-type equality, so an enum
member is never equal to any `str`: the comparison is constantly `False`,
whatever the string is.  Modelled faithfully as such. -/
def maintTypeEqString (_ : MaintenanceType) (_ : String) : Bool := false

/-- Maintenance record (`MaintenanceRecord` dataclass).  The snapshot list
stores the full activity dictionaries appended by `record_maintenance`. -/
structure MaintenanceRecord where
  gear_id : String
  maintenance_type : MaintenanceType
  date : ℚ
  notes : Option String
  distance_at_maintenance : ℚ
  activities_since_last_maintenance : List Activity
deriving DecidableEq, Repr

/-- Source `MaintenanceRecord.calculate_distance`:
`sum(activity.get('distance', 0) for activity in self.activities_since_last_maintenance) / 1000`. -/
def MaintenanceRecord.calculate_distance (r : MaintenanceRecord) : ℚ :=
  (r.activities_since_last_maintenance.foldl (fun s a => s + a.distance.getD 0) 0) / 1000

/-- Per-gear usage statistics (`GearUsage` dataclass).  `sport_types` is a
Python `set`, modelled as a `Finset`. -/
structure GearUsage where
  gear_id : String
  sport_types : Finset String
  total_distance_m : ℚ
  total_distance_km : ℚ
  activities_count : Nat
  first_activity_date : Option ℚ
  last_activity_date : Option ℚ
  maintenance_history : List MaintenanceRecord
deriving DecidableEq

/-- Service interval definition (`ServiceInterval` dataclass). -/
structure ServiceInterval where
  gear_id : String
  item : String
  interval_type : String
  interval_value : ℚ
  action : String
  last_service_date : Option ℚ
  last_service_distance : Option ℚ
deriving DecidableEq, Repr

/-- Physical component (`Component` dataclass).  `status` is one of
`"active"`, `"in_inventory"`, `"retired"`; the constructor validates it but
later attribute assignments in the source do not re-validate. -/
structure Component where
  id : String
  name : String
  brand : String
  model : String
  installation_date : ℚ
  gear_id : String
  status : String
  notes : Option String
  purchase_date : Option ℚ
  purchase_price : Option ℚ
  mileage_at_installation : ℚ
  current_mileage : ℚ
deriving DecidableEq, Repr

/-- Component swap ledger entry (`ComponentSwap` dataclass). -/
structure ComponentSwap where
  date : ℚ
  gear_id : String
  component_id : String
  old_component_id : Option String
  action : String
  mileage : ℚ
  notes : Option String
deriving DecidableEq, Repr

/-- Source `_get_activities_between_dates`: iterates over the activities in
order; for each one parses the date (a parse failure is caught and the
activity skipped) and appends the activity when
`start_date is None or activity_date >= start_date` and `activity_date <= end_date`. -/
def _get_activities_between_dates : List Activity → Option ℚ → ℚ → List Activity
  | [], _, _ => []
  | a :: rest, start_date, end_date =>
    match parseStartDate a.start_date with
    | none => _get_activities_between_dates rest start_date end_date
    | some t =>
      if (match start_date with | none => true | some s => decide (s ≤ t))
          && decide (t ≤ end_date) then
        a :: _get_activities_between_dates rest start_date end_date
      else
        _get_activities_between_dates rest start_date end_date

/-- Specification-side window predicate (from §4.2 and the C5 sources): an
activity is selected iff its date parses, `s is null or start_date >= s`,
and `start_date <= e`. -/
def windowSpecPred (start_date : Option ℚ) (end_date : ℚ) (a : Activity) : Bool :=
  match parseStartDate a.start_date with
  | none => false
  | some t =>
    (match start_date with | none => true | some s => decide (s ≤ t)) && decide (t ≤ end_date)

theorem gabd_eq_filter (acts : List Activity) (s : Option ℚ) (e : ℚ) :
    _get_activities_between_dates acts s e = acts.filter (windowSpecPred s e) := by
  induction acts with
  | nil => rfl
  | cons a rest ih =>
    cases hp : parseStartDate a.start_date with
    | none =>
      simp [_get_activities_between_dates, List.filter_cons, windowSpecPred, hp, ih]
    | some t =>
      simp only [_get_activities_between_dates, List.filter_cons, windowSpecPred, hp]
      cases hcond : ((match s with | none => true | some sd => decide (sd ≤ t))
          && decide (t ≤ e)) <;>
        simp [hcond, ih]

/-- Fresh `GearUsage` created by `analyze_gear_usage` for a newly seen gear:
`GearUsage(gear_id=gear_id, sport_types=set(), total_distance_m=0,
total_distance_km=0, activities_count=0, maintenance_history=self.maintenance_records.get(gear_id, []))`. -/
def initUsage (recs : String → List MaintenanceRecord) (g : String) : GearUsage :=
  { gear_id := g, sport_types := ∅, total_distance_m := 0, total_distance_km := 0,
    activities_count := 0, first_activity_date := none, last_activity_date := none,
    maintenance_history := recs g }

/-- Update of the sport-type set: `if activity.get('sport_type'): usage.sport_types.add(...)`. -/
def addSport (st : Finset String) : Option String → Finset String
  | none => st
  | some s => if s = "" then st else insert s st

/-- Running-minimum update of `first_activity_date`. -/
def updMin (o : Option ℚ) (t : ℚ) : Option ℚ :=
  match o with
  | none => some t
  | some f => if t < f then some t else some f

/-- Running-maximum update of `last_activity_date`. -/
def updMax (o : Option ℚ) (t : ℚ) : Option ℚ :=
  match o with
  | none => some t
  | some f => if f < t then some t else some f

/-- Loop body of `analyze_gear_usage` applied to one activity whose date
parsed to `t`: add the sport type, add the distance, recompute the km total
from the metre total, bump the count, update the date range. -/
def applyActivity (u : GearUsage) (a : Activity) (t : ℚ) : GearUsage :=
  { u with
    sport_types := addSport u.sport_types a.sport_type,
    total_distance_m := u.total_distance_m + a.distance.getD 0,
    total_distance_km := (u.total_distance_m + a.distance.getD 0) / 1000,
    activities_count := u.activities_count + 1,
    first_activity_date := updMin u.first_activity_date t,
    last_activity_date := updMax u.last_activity_date t }

/-- The mapping `gear_id → GearUsage` built by `analyze_gear_usage`
(a Python dict, modelled as a function into `Option`). -/
def GMap : Type := String → Option GearUsage

/-- Processing of one activity by `analyze_gear_usage`: activities whose
`gear_id` is falsy are skipped; otherwise a fresh usage entry is created on
first sight, and the date parse (`datetime.fromisoformat`, unguarded in this
function) raises on a malformed date, modelled by `none`. -/
def updateUsage (recs : String → List MaintenanceRecord) (m : GMap) (a : Activity) :
    Option GMap :=
  match a.gear_id with
  | none => some m
  | some g =>
    if g = "" then some m
    else
      let u := (m g).getD (initUsage recs g)
      match parseStartDate a.start_date with
      | none => none
      | some t => some (fun k => if k = g then some (applyActivity u a t) else m k)

/-- Source `analyze_gear_usage`: left fold of `updateUsage` over the activity
list starting from the empty dict; an exception anywhere discards the whole
result (the partially built local dict is unobservable), modelled by `Option`. -/
def analyze_gear_usage (recs : String → List MaintenanceRecord) (acts : List Activity) :
    Option GMap :=
  acts.foldl (fun acc a => acc.bind fun m => updateUsage recs m a) (some (fun _ => none))

/-- In-memory state of a `StravaGearMonitor` instance restricted to the
collections the embedded operations touch, together with the persisted
mirrors of the component collections (the JSON files written by
`_save_components` / `_save_component_swaps`). -/
structure MonitorState where
  maintenance_records : String → List MaintenanceRecord
  service_intervals : String → List ServiceInterval
  components : String → Option Component
  component_swaps : List ComponentSwap
  stored_components : String → Option Component
  stored_swaps : List ComponentSwap

/-- Effect of `self._save_components()` followed by `self._save_component_swaps()`:
the in-memory collections are written to their files. -/
def saveComponentsAndSwaps (s : MonitorState) : MonitorState :=
  { s with stored_components := s.components, stored_swaps := s.component_swaps }

/-- Python `max(rs, key=lambda x: x.date)` over the nonempty list `r :: rest`:
keeps the first element whose date is maximal. -/
def listMaxByDate (r : MaintenanceRecord) (rest : List MaintenanceRecord) :
    MaintenanceRecord :=
  rest.foldl (fun best x => if best.date < x.date then x else best) r

/-- Most recent previous record of the same type, as computed by
`record_maintenance` lines 562-567: filter the gear's records by type, take
`max(..., key=lambda x: x.date)` when nonempty. -/
def latestOfType (records : List MaintenanceRecord) (mt : MaintenanceType) :
    Option MaintenanceRecord :=
  match records.filter (fun r => r.maintenance_type == mt) with
  | [] => none
  | r :: rest => some (listMaxByDate r rest)

/-- Source `record_maintenance` (lines 543-605).  `activities` stands for the
result of `self.get_all_activities()` (which never raises: it catches its own
errors) and `now` for `datetime.now().astimezone()`.  `_save_maintenance_records`
catches its own exceptions, so the operation always succeeds from here on. -/
def record_maintenance (s : MonitorState) (activities : List Activity) (gear_id : String)
    (maintenance_type : MaintenanceType) (notes : Option String) (now : ℚ) :
    MonitorState × Bool :=
  let previous := latestOfType (s.maintenance_records gear_id) maintenance_type
  let activities_since := _get_activities_between_dates activities
    (previous.map (fun r => r.date)) now
  let gear_activities := activities_since.filter (fun a => a.gear_id == some gear_id)
  let record : MaintenanceRecord :=
    { gear_id := gear_id, maintenance_type := maintenance_type, date := now,
      notes := notes, distance_at_maintenance := 0,
      activities_since_last_maintenance := gear_activities }
  ({ s with maintenance_records := fun g =>
      if g = gear_id then s.maintenance_records gear_id ++ [record]
      else s.maintenance_records g }, true)

/-- Source `delete_maintenance_record` (lines 607-639): reject when the gear
has no records (the source checks dict membership; a present-but-empty list
fails the subsequent bounds check identically) or when the 1-based index is
out of `[1, len(records)]`; otherwise `del records[record_index - 1]`. -/
def delete_maintenance_record (s : MonitorState) (gear_id : String)
    (record_index : Int) : MonitorState × Bool :=
  let records := s.maintenance_records gear_id
  if records = [] then (s, false)
  else if 1 ≤ record_index ∧ record_index ≤ records.length then
    ({ s with maintenance_records := fun g =>
        if g = gear_id then records.eraseIdx (record_index - 1).toNat
        else s.maintenance_records g }, true)
  else (s, false)

/-- Stable insertion keeping earlier elements first among equal dates. -/
def insertByDate (r : MaintenanceRecord) : List MaintenanceRecord → List MaintenanceRecord
  | [] => [r]
  | x :: xs => if x.date ≤ r.date then x :: insertByDate r xs else r :: x :: xs

/-- Python `sorted(records, key=lambda x: x.date)`: stable ascending sort. -/
def sortByDate (records : List MaintenanceRecord) : List MaintenanceRecord :=
  records.foldl (fun acc r => insertByDate r acc) []

/-- Source `get_maintenance_history` (lines 641-655): take the gear's records,
filter them by `r.maintenance_type == item` when `item` is truthy (an
enum-to-string comparison, hence constantly false, see `maintTypeEqString`),
and sort ascending by date. -/
def get_maintenance_history (s : MonitorState) (gear_id : String)
    (item : Option String) : List MaintenanceRecord :=
  let records := s.maintenance_records gear_id
  let records := match item with
    | none => records
    | some it =>
      if it = "" then records
      else records.filter (fun r => maintTypeEqString r.maintenance_type it)
  sortByDate records

/-- Source `add_service_interval` (lines 896-956): reject when
`get_maintenance_history(gear_id, item)` is empty, when `interval_type` is
neither `time` nor `distance`, or when `interval_value <= 0`; otherwise
anchor a new interval to the latest matching record and append it. -/
def add_service_interval (s : MonitorState) (gear_id item interval_type : String)
    (interval_value : ℚ) (action : String) : MonitorState × Bool :=
  match get_maintenance_history s gear_id (some item) with
  | [] => (s, false)
  | r :: rest =>
    if interval_type ≠ "time" ∧ interval_type ≠ "distance" then (s, false)
    else if interval_value ≤ 0 then (s, false)
    else
      let latest := listMaxByDate r rest
      let interval : ServiceInterval :=
        { gear_id := gear_id, item := item.toLower, interval_type := interval_type,
          interval_value := interval_value, action := action.toLower,
          last_service_date := some latest.date,
          last_service_distance := some latest.calculate_distance }
      ({ s with service_intervals := fun g =>
          if g = gear_id then s.service_intervals gear_id ++ [interval]
          else s.service_intervals g }, true)

/-- Next-due value displayed for a service interval. -/
inductive DueValue where
  | dueDate (t : ℚ)
  | dueDistance (km : ℚ)
deriving DecidableEq, Repr

/-- Seconds in `timedelta(weeks=1)`. -/
def weekSeconds : ℚ := 7 * 24 * 3600

/-- Next-due computation of `display_service_intervals` (lines 882-893) and
`print_service_intervals` (lines 1008-1019): nothing is shown when
`last_service_date` is falsy; for a `time` interval the due date is
`last_service_date + timedelta(weeks=interval_value)`; otherwise the due
distance is `last_service_distance + interval_value`, an expression that
raises `TypeError` when `last_service_distance` is `None` (modelled by
`Except.error`). -/
def displayNextDue (si : ServiceInterval) : Except Unit (Option DueValue) :=
  match si.last_service_date with
  | none => .ok none
  | some d =>
    if si.interval_type = "time" then
      .ok (some (.dueDate (d + si.interval_value * weekSeconds)))
    else
      match si.last_service_distance with
      | none => .error ()
      | some x => .ok (some (.dueDistance (x + si.interval_value)))

/-- Source `add_component` (lines 1117-1181).  `activities` stands for
`self.get_all_activities()`, `now` for `datetime.now().astimezone()` and
`stamp` for `int(time.time())` in the generated id.  An exception inside the
`try` block (only `analyze_gear_usage` can raise here) returns `None` with
the state untouched. -/
def add_component (s : MonitorState) (activities : List Activity)
    (name brand model gear_id : String) (purchase_date : Option ℚ)
    (purchase_price : Option ℚ) (notes : Option String) (now : ℚ) (stamp : String) :
    MonitorState × Option String :=
  let component_id := brand.toLower ++ "_" ++ model.toLower ++ "_" ++ stamp
  match analyze_gear_usage s.maintenance_records activities with
  | none => (s, none)
  | some gear_usage =>
    let current_mileage := ((gear_usage gear_id).map (fun u => u.total_distance_km)).getD 0
    let component : Component :=
      { id := component_id, name := name, brand := brand, model := model,
        installation_date := now, gear_id := gear_id, status := "active",
        notes := notes, purchase_date := purchase_date, purchase_price := purchase_price,
        mileage_at_installation := current_mileage, current_mileage := current_mileage }
    let s1 := { s with components := fun k =>
        if k = component_id then some component else s.components k }
    let swap : ComponentSwap :=
      { date := now, gear_id := gear_id, component_id := component_id,
        old_component_id := none, action := "install", mileage := current_mileage,
        notes := some ("Initial installation") }
    let s2 := { s1 with component_swaps := s1.component_swaps ++ [swap] }
    (saveComponentsAndSwaps s2, some component_id)

/-- Source `swap_component` (lines 1183-1266).  The removal side (status and
mileage update of the old component, append of the removal swap) is executed
before the install side is validated; a validation failure of the install
side returns `False` without saving, leaving the in-memory mutations in
place.  `activities` stands for `self.get_all_activities()` and `now` for the
`datetime.now().astimezone()` calls. -/
def swap_component (s : MonitorState) (activities : List Activity)
    (gear_id old_component_id : String) (new_component_id : Option String)
    (action : String) (notes : Option String) (now : ℚ) : MonitorState × Bool :=
  match s.components old_component_id with
  | none => (s, false)
  | some old_component =>
    if old_component.gear_id ≠ gear_id then (s, false)
    else
      match analyze_gear_usage s.maintenance_records activities with
      | none => (s, false)
      | some gear_usage =>
        let current_mileage :=
          ((gear_usage gear_id).map (fun u => u.total_distance_km)).getD 0
        let old_updated := { old_component with
          status := if action = "retire" then "retired" else "in_inventory",
          current_mileage := current_mileage }
        let s1 := { s with components := fun k =>
            if k = old_component_id then some old_updated else s.components k }
        let removal : ComponentSwap :=
          { date := now, gear_id := gear_id, component_id := old_component_id,
            old_component_id := none, action := action, mileage := current_mileage,
            notes := notes }
        let s2 := { s1 with component_swaps := s1.component_swaps ++ [removal] }
        match new_component_id with
        | none => (saveComponentsAndSwaps s2, true)
        | some nid =>
          match s2.components nid with
          | none => (s2, false)
          | some new_component =>
            if new_component.status ≠ "in_inventory" then (s2, false)
            else
              let new_updated := { new_component with
                status := "active", gear_id := gear_id, installation_date := now,
                mileage_at_installation := current_mileage,
                current_mileage := current_mileage }
              let s3 := { s2 with components := fun k =>
                  if k = nid then some new_updated else s2.components k }
              let install : ComponentSwap :=
                { date := now, gear_id := gear_id, component_id := nid,
                  old_component_id := some old_component_id, action := "install",
                  mileage := current_mileage, notes := notes }
              let s4 := { s3 with component_swaps := s3.component_swaps ++ [install] }
              (saveComponentsAndSwaps s4, true)

theorem foldl_add_distance (l : List Activity) (c : ℚ) :
    l.foldl (fun s a => s + a.distance.getD 0) c
      = c + (l.map (fun a => a.distance.getD 0)).sum := by
  induction l generalizing c with
  | nil => simp
  | cons a rest ih => simp [List.foldl_cons, ih, add_assoc]

theorem updateUsage_malformed (recs : String → List MaintenanceRecord) (m : GMap)
    (a : Activity) (hg : truthyStr a.gear_id = true)
    (hp : parseStartDate a.start_date = none) : updateUsage recs m a = none := by
  cases hga : a.gear_id with
  | none => simp [truthyStr, hga] at hg
  | some g =>
    have hne : ¬ g = "" := by
      simp [truthyStr, hga] at hg
      simpa using hg
    simp [updateUsage, hga, hne, hp]

theorem analyze_fold_none (recs : String → List MaintenanceRecord) (l : List Activity) :
    l.foldl (fun acc a => acc.bind fun m => updateUsage recs m a) none = none := by
  induction l with
  | nil => rfl
  | cons a rest ih => simpa using ih

theorem analyze_fold_bad (recs : String → List MaintenanceRecord) (l : List Activity)
    (a : Activity) (ha : a ∈ l) (hg : truthyStr a.gear_id = true)
    (hp : parseStartDate a.start_date = none) (init : Option GMap) :
    l.foldl (fun acc a => acc.bind fun m => updateUsage recs m a) init = none := by
  induction l generalizing init with
  | nil => cases ha
  | cons x rest ih =>
    rcases List.mem_cons.mp ha with hax | harest
    · subst hax
      cases init with
      | none =>
        simpa using analyze_fold_none recs rest
      | some m =>
        simp only [List.foldl_cons, Option.bind, updateUsage_malformed recs m a hg hp]
        simpa using analyze_fold_none recs rest
    · exact ih harest _

theorem windowSpecPred_iff (s : Option ℚ) (e : ℚ) (a : Activity) :
    windowSpecPred s e a = true ↔
      ∃ t, parseStartDate a.start_date = some t
        ∧ (s = none ∨ ∃ sd, s = some sd ∧ sd ≤ t) ∧ t ≤ e := by
  cases hp : parseStartDate a.start_date with
  | none => simp [windowSpecPred, hp]
  | some t =>
    cases s with
    | none => simp [windowSpecPred, hp]
    | some sd => simp [windowSpecPred, hp]

/-- C5: for every activity list, nullable start bound and end bound, the
window selector `_get_activities_between_dates` returns exactly the
activities whose `start_date` parses and satisfies
`s is null or start_date >= s` and `start_date <= e`, in input order
(a `filter` of the input list); activities with unparseable dates are
skipped rather than failing the selection. -/
theorem C5_window_selector_correct :
    ∀ (acts : List Activity) (s : Option ℚ) (e : ℚ),
      _get_activities_between_dates acts s e = acts.filter (windowSpecPred s e)
      ∧ ∀ a, a ∈ _get_activities_between_dates acts s e ↔
          a ∈ acts ∧ ∃ t, parseStartDate a.start_date = some t
            ∧ (s = none ∨ ∃ sd, s = some sd ∧ sd ≤ t) ∧ t ≤ e := by
  intro acts s e
  refine ⟨gabd_eq_filter acts s e, fun a => ?_⟩
  rw [gabd_eq_filter acts s e, List.mem_filter, windowSpecPred_iff]

/-- C7: `calculate_distance` returns the sum of the snapshot's `distance`
fields (0 for a missing field) divided by 1000; on the spec's example
snapshot with distances 10000, 20000 and 5000 metres it returns 35. -/
theorem C7_calculate_distance :
    (∀ r : MaintenanceRecord,
        r.calculate_distance =
          ((r.activities_since_last_maintenance.map (fun a => a.distance.getD 0)).sum) / 1000)
    ∧ MaintenanceRecord.calculate_distance
        { gear_id := "g1", maintenance_type := .WASH, date := 6, notes := none,
          distance_at_maintenance := 0,
          activities_since_last_maintenance :=
            [{ id := "a1", gear_id := some ("g1"), sport_type := some ("Ride"),
               distance := some 10000, start_date := .valid 1 },
             { id := "a2", gear_id := some ("g1"), sport_type := some ("Ride"),
               distance := some 20000, start_date := .valid 3 },
             { id := "a3", gear_id := some ("g1"), sport_type := some ("Ride"),
               distance := some 5000, start_date := .valid 5 }] } = 35 := by
  constructor
  · intro r
    unfold MaintenanceRecord.calculate_distance
    rw [foldl_add_distance]
    simp
  · simp only [MaintenanceRecord.calculate_distance, List.foldl_cons, List.foldl_nil,
      Option.getD_some]
    norm_num

/-- C10: unlike the window selector, `analyze_gear_usage` does not guard the
date parse: whenever the list contains an activity with a truthy `gear_id`
whose `start_date` does not parse, the aggregation raises (returns `none`);
conversely, a successful aggregation means every gear-bearing activity's
date parsed. -/
theorem C10_aggregator_raises_on_malformed :
    (∀ (recs : String → List MaintenanceRecord) (acts : List Activity) (a : Activity),
        a ∈ acts → truthyStr a.gear_id = true → parseStartDate a.start_date = none →
          analyze_gear_usage recs acts = none)
    ∧ (∀ (recs : String → List MaintenanceRecord) (acts : List Activity) (m : GMap),
        analyze_gear_usage recs acts = some m →
          ∀ a ∈ acts, truthyStr a.gear_id = true →
            ∃ t, parseStartDate a.start_date = some t) := by
  constructor
  · intro recs acts a ha hg hp
    exact analyze_fold_bad recs acts a ha hg hp _
  · intro recs acts m hsome a ha hg
    cases hp : parseStartDate a.start_date with
    | none =>
      have hnone := analyze_fold_bad recs acts a ha hg hp (some (fun _ => none))
      unfold analyze_gear_usage at hsome
      rw [hnone] at hsome
      cases hsome
    | some t => exact ⟨t, rfl⟩

theorem C10_witness :
    analyze_gear_usage (fun _ => [])
      [{ id := "a1", gear_id := some ("g1"), sport_type := some ("Ride"),
         distance := some 10000, start_date := .malformed }] = none :=
  C10_aggregator_raises_on_malformed.1 _ _
    { id := "a1", gear_id := some ("g1"), sport_type := some ("Ride"),
      distance := some 10000, start_date := .malformed }
    (by decide) (by decide) rfl

/-- C1 (amended): the snapshot captured by `record_maintenance` equals exactly
the activities for the gear whose `start_date` parses and lies in the CLOSED
window `[prev_date_of_same_type, now]` — inclusive at both ends, because the
window selector uses `activity_date >= start_date`; with no previous record
of the type there is no lower bound.  The new record is appended after the
existing records of the gear. -/
theorem C1_snapshot_window_inclusive :
    ∀ (s : MonitorState) (acts : List Activity) (g : String) (mt : MaintenanceType)
      (notes : Option String) (now : ℚ),
      (record_maintenance s acts g mt notes now).1.maintenance_records g =
        s.maintenance_records g ++
          [{ gear_id := g, maintenance_type := mt, date := now, notes := notes,
             distance_at_maintenance := 0,
             activities_since_last_maintenance :=
               acts.filter (fun a =>
                 (a.gear_id == some g)
                   && windowSpecPred
                        ((latestOfType (s.maintenance_records g) mt).map (fun r => r.date))
                        now a) }] := by
  intro s acts g mt notes now
  simp [record_maintenance, gabd_eq_filter, List.filter_filter]

def c1PrevRecord : MaintenanceRecord :=
  { gear_id := "g1", maintenance_type := .WASH, date := 100, notes := none,
    distance_at_maintenance := 0, activities_since_last_maintenance := [] }

def c1State : MonitorState :=
  { maintenance_records := fun g => if g = "g1" then [c1PrevRecord] else [],
    service_intervals := fun _ => [],
    components := fun _ => none,
    component_swaps := [],
    stored_components := fun _ => none,
    stored_swaps := [] }

def c1Activity : Activity :=
  { id := "a1", gear_id := some ("g1"), sport_type := some ("Ride"),
    distance := some 5000, start_date := .valid 100 }

/-- C1 counterexample: an activity whose `start_date` equals the previous
WASH record's date (100) is included in the snapshot of the next WASH record,
so the window is not exclusive of the previous record's date as the claim
states. -/
theorem C1_counterexample :
    parseStartDate c1Activity.start_date =
        (latestOfType (c1State.maintenance_records "g1") .WASH).map (fun r => r.date)
    ∧ ((record_maintenance c1State [c1Activity] "g1" .WASH none 200).1.maintenance_records
        "g1").map (fun r => r.activities_since_last_maintenance) = [[], [c1Activity]] := by
  decide

/-- C8: `delete_maintenance_record` fails, leaving the state unchanged, iff
the gear has no stored records or the 1-based index is outside
`[1, len(records)]`; on success it removes exactly the record at that
position of the stored insertion order (the list becomes
`take (i-1) ++ drop i`), leaving every other record and every other gear's
records unchanged, and never touches the service intervals. -/
theorem C8_delete_maintenance_record :
    ∀ (s : MonitorState) (g : String) (i : Int),
      ((delete_maintenance_record s g i).2 = false ↔
        s.maintenance_records g = [] ∨ i < 1 ∨ ((s.maintenance_records g).length : Int) < i)
      ∧ ((delete_maintenance_record s g i).2 = false → (delete_maintenance_record s g i).1 = s)
      ∧ ((delete_maintenance_record s g i).2 = true →
          (delete_maintenance_record s g i).1.maintenance_records g =
            (s.maintenance_records g).take (i - 1).toNat
              ++ (s.maintenance_records g).drop ((i - 1).toNat + 1))
      ∧ (∀ g2, g2 ≠ g →
          (delete_maintenance_record s g i).1.maintenance_records g2 =
            s.maintenance_records g2)
      ∧ (delete_maintenance_record s g i).1.service_intervals = s.service_intervals := by
  intro s g i
  by_cases h1 : s.maintenance_records g = []
  · refine ⟨?_, ?_, ?_, ?_, ?_⟩ <;>
      simp [delete_maintenance_record, h1]
  · by_cases h2 : 1 ≤ i ∧ i ≤ ((s.maintenance_records g).length : Int)
    · have hfalse : ¬ (s.maintenance_records g = [] ∨ i < 1 ∨
          ((s.maintenance_records g).length : Int) < i) := by
        push_neg
        exact ⟨h1, by omega, by omega⟩
      refine ⟨?_, ?_, ?_, ?_, ?_⟩ <;>
        simp [delete_maintenance_record, h1, h2, hfalse, List.eraseIdx_eq_take_drop_succ]
      intro g2 hne hcontra
      exact absurd hcontra hne
    · have htrue : i < 1 ∨ ((s.maintenance_records g).length : Int) < i := by omega
      refine ⟨?_, ?_, ?_, ?_, ?_⟩ <;>
        simp [delete_maintenance_record, h1, h2, htrue]

def c8State : MonitorState :=
  { maintenance_records := fun g =>
      if g = "g1" then
        [{ gear_id := "g1", maintenance_type := .WASH, date := 10, notes := none,
           distance_at_maintenance := 0, activities_since_last_maintenance := [] },
         { gear_id := "g1", maintenance_type := .LUBE, date := 20, notes := none,
           distance_at_maintenance := 0, activities_since_last_maintenance := [] }]
      else [],
    service_intervals := fun _ => [],
    components := fun _ => none,
    component_swaps := [],
    stored_components := fun _ => none,
    stored_swaps := [] }

theorem C8_witness :
    (delete_maintenance_record c8State "g1" 1).2 = true
    ∧ (delete_maintenance_record c8State "g1" 1).1.maintenance_records "g1" =
        (c8State.maintenance_records "g1").take ((1 : Int) - 1).toNat
          ++ (c8State.maintenance_records "g1").drop (((1 : Int) - 1).toNat + 1)
    ∧ (delete_maintenance_record c8State "g1" 3).2 = false
    ∧ (delete_maintenance_record c8State "g1" 3).1 = c8State :=
  ⟨by decide, (C8_delete_maintenance_record c8State "g1" 1).2.2.1 (by decide),
    by decide, (C8_delete_maintenance_record c8State "g1" 3).2.1 (by decide)⟩

/-- C2 (code defect): `add_service_interval` can never succeed for a
non-empty `item`, whatever the maintenance history is, because the history
lookup filters with `r.maintenance_type == item` — an `Enum`-to-`str`
comparison that is always `False` in Python — so the history it checks is
always empty and the anchoring branch is unreachable. -/
theorem C2_add_service_interval_always_fails :
    ∀ (s : MonitorState) (g item itype : String) (v : ℚ) (act : String),
      item ≠ "" → add_service_interval s g item itype v act = (s, false) := by
  intro s g item itype v act hitem
  have hhist : get_maintenance_history s g (some item) = [] := by
    simp [get_maintenance_history, hitem, maintTypeEqString, sortByDate]
  simp [add_service_interval, hhist]

def c2State : MonitorState :=
  { maintenance_records := fun g =>
      if g = "g1" then
        [{ gear_id := "g1", maintenance_type := .WASH, date := 6, notes := none,
           distance_at_maintenance := 0,
           activities_since_last_maintenance :=
             [{ id := "a1", gear_id := some ("g1"), sport_type := some ("Ride"),
                distance := some 10000, start_date := .valid 1 },
              { id := "a2", gear_id := some ("g1"), sport_type := some ("Ride"),
                distance := some 20000, start_date := .valid 3 },
              { id := "a3", gear_id := some ("g1"), sport_type := some ("Ride"),
                distance := some 5000, start_date := .valid 5 }] }]
      else [],
    service_intervals := fun _ => [],
    components := fun _ => none,
    component_swaps := [],
    stored_components := fun _ => none,
    stored_swaps := [] }

theorem C2_witness :
    add_service_interval c2State "g1" "WASH" "distance" 500 "replace" = (c2State, false)
    ∧ c2State.maintenance_records "g1" ≠ [] :=
  ⟨C2_add_service_interval_always_fails c2State "g1" "WASH" "distance" 500 "replace"
      (by decide),
    by decide⟩

/-- C9: the displayed next-due value for an interval with a non-null anchor
is `last_service_date + interval_value` weeks for `time` intervals and
`last_service_distance + interval_value` kilometres for `distance`
intervals (35 km anchor with interval 500 gives 535 km); the computation is
read-only and `record_maintenance` never touches the stored service
intervals (no re-anchoring). -/
theorem C9_next_due_computation :
    (∀ (si : ServiceInterval) (d : ℚ),
        si.last_service_date = some d → si.interval_type = "time" →
          displayNextDue si = .ok (some (.dueDate (d + si.interval_value * weekSeconds))))
    ∧ (∀ (si : ServiceInterval) (d x : ℚ),
        si.last_service_date = some d → si.interval_type = "distance" →
          si.last_service_distance = some x →
          displayNextDue si = .ok (some (.dueDistance (x + si.interval_value))))
    ∧ (∀ (s : MonitorState) (acts : List Activity) (g : String) (mt : MaintenanceType)
        (notes : Option String) (now : ℚ),
        (record_maintenance s acts g mt notes now).1.service_intervals
          = s.service_intervals)
    ∧ displayNextDue
        { gear_id := "g1", item := "chain", interval_type := "distance",
          interval_value := 500, action := "replace", last_service_date := some 6,
          last_service_distance := some 35 } = .ok (some (.dueDistance 535)) := by
  refine ⟨?_, ?_, ?_, ?_⟩
  · intro si d hd ht
    simp [displayNextDue, hd, ht]
  · intro si d x hd ht hx
    have hne : ¬ si.interval_type = "time" := by
      rw [ht]
      decide
    simp [displayNextDue, hd, hx, hne]
  · intro s acts g mt notes now
    rfl
  · have h : (35 : ℚ) + 500 = 535 := by norm_num
    simpa [displayNextDue] using h

theorem C9_witness :
    displayNextDue
        { gear_id := "g1", item := "chain", interval_type := "time",
          interval_value := 2, action := "check", last_service_date := some 100,
          last_service_distance := some 35 }
      = .ok (some (.dueDate (100 + 2 * weekSeconds)))
    ∧ displayNextDue
        { gear_id := "g1", item := "tires", interval_type := "distance",
          interval_value := 500, action := "replace", last_service_date := some 6,
          last_service_distance := some 35 }
      = .ok (some (.dueDistance (35 + 500))) :=
  ⟨C9_next_due_computation.1 _ 100 rfl rfl,
    C9_next_due_computation.2.1 _ 6 35 rfl rfl rfl⟩

/-- C3 (amended): when the install side of `swap_component` fails validation
(unknown new component or not `in_inventory`), the call returns `False` and
nothing is persisted (the stored mirrors are untouched), but the in-memory
removal HAS already been applied: the old component's status and
`current_mileage` are updated and the removal `ComponentSwap` stays appended
to the in-memory ledger.  The hypotheses pin the failure to the install step
(old component found, gear matches, usage analysis succeeded). -/
theorem C3_swap_install_failure_effects :
    ∀ (s : MonitorState) (acts : List Activity) (g oid nid : String)
      (action : String) (notes : Option String) (now : ℚ) (oc : Component) (gu : GMap),
      s.components oid = some oc →
      oc.gear_id = g →
      analyze_gear_usage s.maintenance_records acts = some gu →
      (swap_component s acts g oid (some nid) action notes now).2 = false →
        (swap_component s acts g oid (some nid) action notes now).1.stored_components
            = s.stored_components
        ∧ (swap_component s acts g oid (some nid) action notes now).1.stored_swaps
            = s.stored_swaps
        ∧ (swap_component s acts g oid (some nid) action notes now).1.components oid =
            some { oc with
              status := if action = "retire" then "retired" else "in_inventory",
              current_mileage := ((gu g).map (fun u => u.total_distance_km)).getD 0 }
        ∧ (swap_component s acts g oid (some nid) action notes now).1.component_swaps =
            s.component_swaps ++
              [{ date := now, gear_id := g, component_id := oid, old_component_id := none,
                 action := action,
                 mileage := ((gu g).map (fun u => u.total_distance_km)).getD 0,
                 notes := notes }] := by
  intro s acts g oid nid action notes now oc gu hoc hgear hgu hfail
  by_cases hno : nid = oid
  · subst hno
    by_cases hact : action = "retire"
    · refine ⟨?_, ?_, ?_, ?_⟩ <;>
        simp [swap_component, hoc, hgear, hgu, hact]
    · exfalso
      simp [swap_component, hoc, hgear, hgu, hact] at hfail
  · cases hnid : s.components nid with
    | none =>
      refine ⟨?_, ?_, ?_, ?_⟩ <;>
        simp [swap_component, hoc, hgear, hgu, hno, hnid]
    | some nc =>
      by_cases hst : nc.status = "in_inventory"
      · exfalso
        simp [swap_component, hoc, hgear, hgu, hno, hnid, hst] at hfail
      · refine ⟨?_, ?_, ?_, ?_⟩ <;>
          simp [swap_component, hoc, hgear, hgu, hno, hnid, hst]

def c3OldComponent : Component :=
  { id := "old1", name := "Chain", brand := "B", model := "M", installation_date := 0,
    gear_id := "g1", status := "active", notes := none, purchase_date := none,
    purchase_price := none, mileage_at_installation := 0, current_mileage := 0 }

def c3State : MonitorState :=
  { maintenance_records := fun _ => [],
    service_intervals := fun _ => [],
    components := fun k => if k = "old1" then some c3OldComponent else none,
    component_swaps := [],
    stored_components := fun k => if k = "old1" then some c3OldComponent else none,
    stored_swaps := [] }

/-- C3 counterexample: when the install step fails (new component id unknown),
the old component's removal HAS been committed to the in-memory state — its
status changed from `active` to `in_inventory` and a removal swap entry is in
the ledger — contradicting the claim that the state is unchanged on error. -/
theorem C3_counterexample :
    (swap_component c3State [] "g1" "old1" (some ("ghost")) "remove" none 50).2 = false
    ∧ ((swap_component c3State [] "g1" "old1" (some ("ghost")) "remove" none 50).1.components
        "old1").map (fun c => c.status) = some ("in_inventory")
    ∧ (swap_component c3State [] "g1" "old1" (some ("ghost")) "remove" none
        50).1.component_swaps =
        [{ date := 50, gear_id := "g1", component_id := "old1", old_component_id := none,
           action := "remove", mileage := 0, notes := none }]
    ∧ (c3State.components "old1").map (fun c => c.status) = some ("active")
    ∧ c3State.component_swaps = [] := by
  decide

theorem C3_witness :
    (swap_component c3State [] "g1" "old1" (some ("ghost")) "remove" none 50).1.stored_swaps
        = c3State.stored_swaps
    ∧ (swap_component c3State [] "g1" "old1" (some ("ghost")) "remove" none
        50).1.component_swaps =
        c3State.component_swaps ++
          [{ date := 50, gear_id := "g1", component_id := "old1", old_component_id := none,
             action := "remove", mileage := 0, notes := none }] := by
  have h := C3_swap_install_failure_effects c3State [] "g1" "old1" "ghost" "remove" none 50
    c3OldComponent (fun _ => none) rfl rfl rfl (by decide)
  exact ⟨h.2.1, h.2.2.2⟩

/-- C4 (amended): as implemented, `retired` is NOT fully terminal — the one
escape is `swap_component`, which performs no status check on the component
being removed, so a retired component named as `old_component_id` can be
moved back to `in_inventory` by a `remove` action.  In every other role a
retired component is preserved: `swap_component` never touches a retired
component other than the removal target (the install step only activates
components whose status is `in_inventory`), `add_component` only writes a
fresh id, and the maintenance and interval operations never touch the
component store at all. -/
theorem C4_retired_components_preserved :
    (∀ (s : MonitorState) (acts : List Activity) (g oid : String) (nid : Option String)
        (action : String) (notes : Option String) (now : ℚ) (k : String) (c : Component),
        s.components k = some c → c.status = "retired" → k ≠ oid →
          (swap_component s acts g oid nid action notes now).1.components k = some c)
    ∧ (∀ (s : MonitorState) (acts : List Activity) (name brand model g : String)
        (pd pp : Option ℚ) (notes : Option String) (now : ℚ) (stamp : String)
        (k : String) (c : Component),
        s.components k = some c →
        k ≠ brand.toLower ++ "_" ++ model.toLower ++ "_" ++ stamp →
          (add_component s acts name brand model g pd pp notes now stamp).1.components k
            = some c)
    ∧ (∀ (s : MonitorState) (acts : List Activity) (g : String) (mt : MaintenanceType)
        (notes : Option String) (now : ℚ),
        (record_maintenance s acts g mt notes now).1.components = s.components)
    ∧ (∀ (s : MonitorState) (g item itype : String) (v : ℚ) (act : String),
        (add_service_interval s g item itype v act).1.components = s.components)
    ∧ (∀ (s : MonitorState) (g : String) (i : Int),
        (delete_maintenance_record s g i).1.components = s.components) := by
  refine ⟨?_, ?_, ?_, ?_, ?_⟩
  · intro s acts g oid nid action notes now k c hkc hret hko
    cases hoc : s.components oid with
    | none => simp [swap_component, hoc, hkc]
    | some oc =>
      by_cases hgear : oc.gear_id ≠ g
      · simp [swap_component, hoc, hgear, hkc]
      · cases hgu : analyze_gear_usage s.maintenance_records acts with
        | none => simp [swap_component, hoc, hgear, hgu, hkc]
        | some gu =>
          cases nid with
          | none =>
            simp [swap_component, hoc, hgear, hgu, saveComponentsAndSwaps, hko, hkc]
          | some nid2 =>
            by_cases hno : nid2 = oid
            · subst hno
              by_cases hact : action = "retire"
              · simp [swap_component, hoc, hgear, hgu, hact, hko, hkc]
              · simp [swap_component, hoc, hgear, hgu, hact, saveComponentsAndSwaps,
                  hko, hkc]
            · cases hnid2 : s.components nid2 with
              | none => simp [swap_component, hoc, hgear, hgu, hno, hnid2, hko, hkc]
              | some nc =>
                by_cases hst : nc.status = "in_inventory"
                · by_cases hknid : k = nid2
                  · exfalso
                    subst hknid
                    rw [hkc] at hnid2
                    injection hnid2 with hcn
                    subst hcn
                    rw [hret] at hst
                    exact absurd hst (by decide)
                  · simp [swap_component, hoc, hgear, hgu, hno, hnid2, hst,
                      saveComponentsAndSwaps, hknid, hko, hkc]
                · simp [swap_component, hoc, hgear, hgu, hno, hnid2, hst, hko, hkc]
  · intro s acts name brand model g pd pp notes now stamp k c hkc hkid
    cases hgu : analyze_gear_usage s.maintenance_records acts with
    | none => simp [add_component, hgu, hkc]
    | some gu => simp [add_component, hgu, saveComponentsAndSwaps, hkid, hkc]
  · intro s acts g mt notes now
    rfl
  · intro s g item itype v act
    simp only [add_service_interval]
    cases hh : get_maintenance_history s g (some item) with
    | nil => rfl
    | cons r rest => split_ifs <;> rfl
  · intro s g i
    simp only [delete_maintenance_record]
    split_ifs <;> rfl

def c4RetiredComponent : Component :=
  { id := "c1", name := "Tires", brand := "B", model := "M", installation_date := 0,
    gear_id := "g1", status := "retired", notes := none, purchase_date := none,
    purchase_price := none, mileage_at_installation := 0, current_mileage := 0 }

def c4ActiveComponent : Component :=
  { id := "a0", name := "Chain", brand := "B", model := "M", installation_date := 0,
    gear_id := "g1", status := "active", notes := none, purchase_date := none,
    purchase_price := none, mileage_at_installation := 0, current_mileage := 0 }

def c4State : MonitorState :=
  { maintenance_records := fun _ => [],
    service_intervals := fun _ => [],
    components := fun k =>
      if k = "a0" then some c4ActiveComponent
      else if k = "c1" then some c4RetiredComponent else none,
    component_swaps := [],
    stored_components := fun k =>
      if k = "a0" then some c4ActiveComponent
      else if k = "c1" then some c4RetiredComponent else none,
    stored_swaps := [] }

/-- C4 counterexample: `swap_component` accepts a retired component as the
removal target (it checks only existence and gear), so a retired component
is moved back to `in_inventory` — `retired` is not terminal. -/
theorem C4_counterexample :
    (swap_component c4State [] "g1" "c1" none "remove" none 10).2 = true
    ∧ ((swap_component c4State [] "g1" "c1" none "remove" none 10).1.components "c1").map
        (fun c => c.status) = some ("in_inventory")
    ∧ (c4State.components "c1").map (fun c => c.status) = some ("retired") := by
  decide

theorem C4_witness :
    (swap_component c4State [] "g1" "a0" none "remove" none 10).2 = true
    ∧ (swap_component c4State [] "g1" "a0" none "remove" none 10).1.components "c1"
        = some c4RetiredComponent :=
  ⟨by decide,
    C4_retired_components_preserved.1 c4State [] "g1" "a0" none "remove" none 10 "c1"
      c4RetiredComponent (by decide) rfl (by decide)⟩

theorem C1_witness :
    (record_maintenance c1State [c1Activity] "g1" .WASH none 200).1.maintenance_records "g1" =
      c1State.maintenance_records "g1" ++
        [{ gear_id := "g1", maintenance_type := .WASH, date := 200, notes := none,
           distance_at_maintenance := 0,
           activities_since_last_maintenance :=
             [c1Activity].filter (fun a =>
               (a.gear_id == some ("g1"))
                 && windowSpecPred
                      ((latestOfType (c1State.maintenance_records "g1") .WASH).map
                        (fun r => r.date)) 200 a) }] :=
  C1_snapshot_window_inclusive c1State [c1Activity] "g1" .WASH none 200

theorem C5_witness :
    _get_activities_between_dates
        [{ id := "a1", gear_id := some ("g1"), sport_type := some ("Ride"),
           distance := some 10000, start_date := .valid 5 }] (some 0) 10
      = List.filter (windowSpecPred (some 0) 10)
          [{ id := "a1", gear_id := some ("g1"), sport_type := some ("Ride"),
             distance := some 10000, start_date := .valid 5 }] :=
  (C5_window_selector_correct
    [{ id := "a1", gear_id := some ("g1"), sport_type := some ("Ride"),
       distance := some 10000, start_date := .valid 5 }] (some 0) 10).1

theorem C7_witness :
    MaintenanceRecord.calculate_distance
        { gear_id := "g1", maintenance_type := .WASH, date := 6, notes := none,
          distance_at_maintenance := 0,
          activities_since_last_maintenance :=
            [{ id := "a1", gear_id := some ("g1"), sport_type := some ("Ride"),
               distance := some 10000, start_date := .valid 1 },
             { id := "a2", gear_id := some ("g1"), sport_type := some ("Ride"),
               distance := some 20000, start_date := .valid 3 },
             { id := "a3", gear_id := some ("g1"), sport_type := some ("Ride"),
               distance := some 5000, start_date := .valid 5 }] } = 35 :=
  C7_calculate_distance.2
